import Mathlib

/-!
Shallow embedding of `Home.py` (single-page Streamlit dashboard) and proofs
of its specified behaviour.  The table is modelled row-wise: every cell is
optional, mirroring pandas nullable cells; numeric values are modelled as
integers because the view only ever displays them.  UI emission is modelled
as a list of output events; the one Python exception path (`int(nan)` when
the `year` column is present but entirely null) is modelled with `Except`.
-/

namespace Home

/-- Row of the loaded long-format table (`Indicator Record`).  Each cell is
optional to model pandas null cells. -/
structure Row where
  country : Option String
  country_code : Option String
  year : Option Int
  value : Option Int
  indicator_name : Option String
  source : Option String
deriving Repr, DecidableEq

/-- An in-memory table: the list of column names actually present (in native
order) together with the rows. -/
structure DataFrame where
  cols : List String
  rows : List Row
deriving Repr, DecidableEq

/-- `pd.DataFrame()`: no columns and no rows. -/
def DataFrame.empty : DataFrame := ⟨[], []⟩

/-- pandas `df.empty`: true when any axis has length zero. -/
def DataFrame.isEmpty (df : DataFrame) : Bool := df.rows.isEmpty || df.cols.isEmpty

/-- A dataframe is well formed when a cell can only be populated if its
column is present in the table. -/
def DataFrame.WF (df : DataFrame) : Prop :=
  (df.cols.contains "country_code" = false → ∀ r ∈ df.rows, r.country_code = none) ∧
  (df.cols.contains "indicator_name" = false → ∀ r ∈ df.rows, r.indicator_name = none) ∧
  (df.cols.contains "year" = false → ∀ r ∈ df.rows, r.year = none)

/-- The backing store: maps a path to the table stored in the file there,
or `none` when no file exists at that path. -/
def FS : Type := String → Option DataFrame

/-- `DATA_PATH = BASE_DIR / "data" / "processed" / "econ_option_a.parquet"`
(Home.py line 15), parameterised by the runtime-resolved base directory. -/
def data_path (baseDir : String) : String :=
  baseDir ++ "/data/processed/econ_option_a.parquet"

/-- The external command named in the onboarding warning (Home.py line 47). -/
def etl_command : String := "python scripts/etl_worldbank.py"

/-- `load_data` (Home.py lines 17-22): if the path does not exist return an
empty dataframe, otherwise read the file.  Total: no error path. -/
def load_data (fs : FS) (path : String) : DataFrame :=
  match fs path with
  | none => DataFrame.empty
  | some df => df

/-- Modelled from the spec: the semantics of the `@st.cache_data` decorator
on `load_data` (Home.py line 17).  The decorator itself is library code not
present in the repository; per the spec, "repeated calls with the same path
within the process lifetime must not re-read the file from storage; the
result is cached keyed by path".  The cache is a path-keyed association
list; the boolean records whether the call read from storage. -/
def Cache : Type := List (String × DataFrame)

/-- Modelled from the spec: one call through the cache.  Returns the table,
the updated cache, and whether a storage read happened. -/
def cachedLoad (fs : FS) (cache : Cache) (path : String) :
    DataFrame × Cache × Bool :=
  match List.lookup path cache with
  | some df => (df, cache, false)
  | none =>
    let df := load_data fs path
    (df, (path, df) :: cache, true)

/-- `countries` (Home.py line 55): `df["country_code"].nunique()` when the
column is present, else `0`.  pandas `nunique` drops nulls. -/
def countries (df : DataFrame) : Nat :=
  if df.cols.contains "country_code" then
    ((df.rows.filterMap Row.country_code).dedup).length
  else 0

/-- `indicators` (Home.py line 56):
`sorted(df["indicator_name"].dropna().unique().tolist())` when the column is
present, else `[]`. -/
def indicators (df : DataFrame) : List String :=
  if df.cols.contains "indicator_name" then
    List.insertionSort (fun a b => a ≤ b) (df.rows.filterMap Row.indicator_name).dedup
  else []

/-- The Python error raised by `int(float("nan"))`. -/
def nan_int_error : String := "cannot convert float NaN to integer"

/-- `year_min` (Home.py line 57): `int(df["year"].min())` when the `year`
column is present (pandas `min` skips nulls; on an all-null column it yields
NaN and the `int(...)` conversion raises), else `None`. -/
def year_min (df : DataFrame) : Except String (Option Int) :=
  if df.cols.contains "year" then
    match (df.rows.filterMap Row.year).min? with
    | some v => Except.ok (some v)
    | none => Except.error nan_int_error
  else Except.ok none

/-- `year_max` (Home.py line 58): `int(df["year"].max())` when the `year`
column is present, else `None`. -/
def year_max (df : DataFrame) : Except String (Option Int) :=
  if df.cols.contains "year" then
    match (df.rows.filterMap Row.year).max? with
    | some v => Except.ok (some v)
    | none => Except.error nan_int_error
  else Except.ok none

/-- `rows = len(df)` (Home.py line 59): the row count. -/
def rows (df : DataFrame) : Nat := df.rows.length

/-- Insert thousands separators into a reversed digit list (helper for the
Python `f"{n:,}"` format). -/
def commaChunk : List Char → List Char
  | a :: b :: c :: rest@(_ :: _) => a :: b :: c :: ',' :: commaChunk rest
  | l => l

/-- Python `f"{n:,}"`: decimal digits grouped in threes by commas. -/
def commaFmt (n : Nat) : String :=
  String.mk ((commaChunk (toString n).toList.reverse).reverse)

/-- The Years metric string (Home.py line 64): an em-dash placeholder when
`year_min` is `None`, else `f"{year_min} → {year_max}"`. -/
def yearsStr (ym yM : Option Int) : String :=
  match ym with
  | none => "—"
  | some m =>
    toString m ++ " → " ++ (match yM with | some M => toString M | none => "None")

/-- The fixed preview column allowlist (Home.py line 180). -/
def allow_list : List String :=
  ["country", "country_code", "year", "indicator_name", "value", "source"]

/-- `show_cols` (Home.py line 180): the allowlist filtered to the columns
present, in allowlist order. -/
def show_cols (df : DataFrame) : List String :=
  allow_list.filter (fun c => df.cols.contains c)

/-- The preview rows (Home.py line 181): `df[show_cols].head(50)`. -/
def preview_rows (df : DataFrame) : List Row := df.rows.take 50

/-- One rendered UI event. -/
inductive Output where
  | html (s : String)
  | warning (s : String)
  | metric (label val : String)
  | divider
  | subheader (s : String)
  | text (s : String)
  | info (s : String)
  | caption (s : String)
  | preview (cols : List String) (rows : List Row)
deriving Repr, DecidableEq

/-- Is this event a metric card? -/
def Output.isMetric : Output → Bool
  | .metric _ _ => true
  | _ => false

/-- Is this event the dataset preview? -/
def Output.isPreview : Output → Bool
  | .preview _ _ => true
  | _ => false

/-- Is this event a static prose section (descriptive text, subheaders,
info boxes, captions, dividers)? -/
def Output.isProseSection : Output → Bool
  | .subheader _ => true
  | .text _ => true
  | .info _ => true
  | .caption _ => true
  | .divider => true
  | _ => false

/-- The hero header (Home.py lines 29-40), rendered unconditionally before
the empty check. -/
def heroHtml : String :=
  "<div style=\"padding: 0.6rem 0 0.2rem 0;\">\n<h1 style=\"margin-bottom: 0.2rem;\">🌍 Global Economy Dashboard</h1>\n<p style=\"margin-top: 0; font-size: 1.05rem; color: #666;\">\nAn interactive analytics suite built with <b>Python + Streamlit + Plotly</b> using\n<b>World Bank World Development Indicators (WDI)</b>.\n</p>\n</div>"

/-- The onboarding warning (Home.py lines 44-49): names the expected data
path and the ETL command that produces the file. -/
def warning_msg (baseDir : String) : String :=
  "Dataset not found at: " ++ data_path baseDir ++
    "\n\nTo generate it locally, run:\n• `" ++ etl_command ++ "`\n\nThen re-run the app."

/-- The static descriptive sections (Home.py lines 67-177): project
description, usage instructions, the four dashboard cards, and the data
source block.  Pure text, no data dependency. -/
def prose_outputs : List Output :=
  [Output.divider,
   Output.subheader "What this project is about",
   Output.text "This project is designed as a **portfolio-grade data product** that demonstrates:\n- **ETL pipeline** (API ingestion → cleaning → parquet)\n- **Exploratory analytics** (country trends, ranking, cross-indicator analysis)\n- **Interactive dashboards** (filters, KPIs, maps, downloads)\n- **Deployment readiness** (designed for Hugging Face Spaces or Streamlit hosting)\n\nThe goal is to make global macroeconomic data easy to explore using modern, interactive visualization.",
   Output.subheader "How to use the app",
   Output.text "1. Use the **sidebar Pages** menu to switch dashboards.\n2. Apply filters (country, indicator, year).\n3. Use **Download CSV** when available to export slices.\n4. Compare countries via **rankings + maps** for fast insights.",
   Output.info "Tip: Start with **Macro** for country trends, then use **Rankings & Map** for global context.",
   Output.divider,
   Output.subheader "Dashboards inside this project",
   Output.text "### 📈 Macro Dashboard",
   Output.text "**Purpose:** Explore a single country over time and compare indicators.\n\n**What you can do:**\n- Select a country + multiple indicators\n- View KPI snapshots (latest year)\n- Plot trends over time (line chart)\n- Compare indicators in a pivot table",
   Output.text "### 🧺 Cost of Living & Affordability",
   Output.text "**Purpose:** Analyze inflation impact and affordability proxies.\n\n**What you can do:**\n- Track inflation + related cost-of-living indicators\n- View affordability-style plots (e.g., inflation vs GDP per capita)\n- Highlight a country relative to others\n- Export filtered data",
   Output.text "### 🗺️ Global Rankings & Map",
   Output.text "**Purpose:** Compare countries globally for any indicator in a selected year.\n\n**What you can do:**\n- Rank **Top / Bottom** countries by indicator and year\n- Visualize results on a full-width **world choropleth map**\n- Switch to log-scale for skewed indicators\n- Download indicator-year slices",
   Output.text "### 🧠 Global Health Index",
   Output.text "**Purpose:** Build a composite economic “health” view.\n\n**What you can do:**\n- Compute an index from growth, inflation, unemployment\n- Normalize indicators (z-scores)\n- Adjust weights (if your page supports it)\n- Rank countries + visualize index on a world map",
   Output.divider,
   Output.subheader "Data source & transparency",
   Output.text "- **Source:** World Bank – World Development Indicators (WDI)\n- **Access method:** World Bank Indicators API (via ETL script)\n- **Processing:** unified long-format table saved as a parquet file\n- **Limitations:** coverage varies by country/year; some indicators may be missing for specific years"]

/-- The closing caption (Home.py lines 183-185). -/
def caption_text : String :=
  "This dashboard is for informational purposes. Reported values depend on World Bank coverage and may be missing for some country-year combinations."

/-- One render cycle of the Dashboard Home View (Home.py lines 29-185): the
hero header, then for an empty table the onboarding warning followed by
`st.stop()`; otherwise the four metric cards in fixed order, the static
prose, the ≤50-row preview in the allowlisted columns, and the caption.
An `Except.error` models the Python exception raised by `int(nan)`. -/
def render (baseDir : String) (df : DataFrame) : Except String (List Output) :=
  if df.isEmpty then
    Except.ok [Output.html heroHtml, Output.warning (warning_msg baseDir)]
  else
    match year_min df, year_max df with
    | Except.error e, _ => Except.error e
    | Except.ok _, Except.error e => Except.error e
    | Except.ok ym, Except.ok yM =>
      Except.ok
        ([Output.html heroHtml,
          Output.metric "Countries" (commaFmt (countries df)),
          Output.metric "Indicators" (commaFmt (indicators df).length),
          Output.metric "Years" (yearsStr ym yM),
          Output.metric "Rows" (commaFmt (rows df))]
          ++ prose_outputs
          ++ [Output.preview (show_cols df) (preview_rows df),
              Output.caption caption_text])

/-- The worked example from the spec: `country_code` in {US, US, FR} and
`indicator_name` in {GDP, Inflation, GDP}, with three distinct years. -/
def dfEx : DataFrame :=
  ⟨["country", "country_code", "year", "indicator_name", "value", "source"],
   [⟨none, some "US", some 2010, none, some "GDP", none⟩,
    ⟨none, some "US", some 2015, none, some "Inflation", none⟩,
    ⟨none, some "FR", some 2012, none, some "GDP", none⟩]⟩

/-- A non-empty table whose `year` column is present but entirely null. -/
def dfNullYear : DataFrame := ⟨["year"], [⟨none, none, none, none, none, none⟩]⟩

/-- Restricting a list to the rows where a field is populated does not
change the `filterMap` extraction of that field. -/
theorem filterMap_filter_isSome {α : Type} (f : Row → Option α) (l : List Row) :
    (l.filter (fun r => (f r).isSome)).filterMap f = l.filterMap f := by
  induction l with
  | nil => rfl
  | cons r t ih =>
    cases h : f r <;> simp [List.filter_cons, List.filterMap_cons, h, ih]

/-- The length of the sorted indicator list equals the length of the
deduplicated extraction. -/
theorem indicators_length (df : DataFrame) :
    (indicators df).length =
      if df.cols.contains "indicator_name" then
        ((df.rows.filterMap Row.indicator_name).dedup).length
      else 0 := by
  unfold indicators
  split
  · exact (List.perm_insertionSort (fun a b => a ≤ b) _).length_eq
  · rfl

/-- No static prose section is a metric card. -/
theorem prose_no_metric : prose_outputs.filter Output.isMetric = [] := rfl

/-- Claim C1: for every path that does not reference an existing file,
`load_data` returns the empty table and raises no error (`load_data` is a
total function, so no error path exists). -/
theorem c1_load_missing_path (fs : FS) (p : String) (h : fs p = none) :
    load_data fs p = DataFrame.empty ∧ (load_data fs p).isEmpty = true := by
  refine ⟨?_, ?_⟩ <;> simp [load_data, h, DataFrame.empty, DataFrame.isEmpty]

theorem c1_witness :
    (((fun _ => none) : FS) "no/such/file" = none) ∧
      (load_data (fun _ => none) "no/such/file" = DataFrame.empty ∧
        (load_data (fun _ => none) "no/such/file").isEmpty = true) :=
  ⟨rfl, c1_load_missing_path (fun _ => none) "no/such/file" rfl⟩

/-- Claim C2: rendering an empty table emits the hero header and then a
user-visible warning naming the expected data path and the external ETL
command, and stops: the output contains no metric card, no prose section,
and no preview. -/
theorem c2_render_empty_halts (baseDir : String) (df : DataFrame)
    (h : df.isEmpty = true) :
    render baseDir df =
      Except.ok [Output.html heroHtml, Output.warning (warning_msg baseDir)] ∧
    (∃ a b, warning_msg baseDir = a ++ data_path baseDir ++ b) ∧
    (∃ a b, warning_msg baseDir = a ++ etl_command ++ b) ∧
    (∀ out, render baseDir df = Except.ok out →
      out.filter (fun o => o.isMetric || o.isPreview || o.isProseSection) = []) := by
  have hr : render baseDir df =
      Except.ok [Output.html heroHtml, Output.warning (warning_msg baseDir)] := by
    simp [render, h]
  refine ⟨hr, ?_, ?_, ?_⟩
  · exact ⟨"Dataset not found at: ",
      "\n\nTo generate it locally, run:\n• `" ++ etl_command ++ "`\n\nThen re-run the app.",
      by simp [warning_msg, String.append_assoc]⟩
  · exact ⟨"Dataset not found at: " ++ data_path baseDir ++
        "\n\nTo generate it locally, run:\n• `",
      "`\n\nThen re-run the app.",
      by simp [warning_msg, String.append_assoc]⟩
  · intro out hout
    rw [hr] at hout
    cases hout
    rfl

theorem c2_witness :
    DataFrame.empty.isEmpty = true ∧
      (render "" DataFrame.empty =
        Except.ok [Output.html heroHtml, Output.warning (warning_msg "")] ∧
      (∃ a b, warning_msg "" = a ++ data_path "" ++ b) ∧
      (∃ a b, warning_msg "" = a ++ etl_command ++ b) ∧
      (∀ out, render "" DataFrame.empty = Except.ok out →
        out.filter (fun o => o.isMetric || o.isPreview || o.isProseSection) = [])) :=
  ⟨rfl, c2_render_empty_halts "" DataFrame.empty rfl⟩

/-- Claim C9: a path whose file is absent and a path whose file exists but
holds zero rows are treated identically: both loads yield an empty table
and both renders produce the same halt output (header plus warning), with
no user-facing distinction. -/
theorem c9_absent_vs_empty_file (baseDir : String) (fs1 fs2 : FS) (p : String)
    (cols2 : List String) (h1 : fs1 p = none) (h2 : fs2 p = some ⟨cols2, []⟩) :
    (load_data fs1 p).isEmpty = true ∧
    (load_data fs2 p).isEmpty = true ∧
    render baseDir (load_data fs1 p) = render baseDir (load_data fs2 p) ∧
    render baseDir (load_data fs1 p) =
      Except.ok [Output.html heroHtml, Output.warning (warning_msg baseDir)] := by
  have e1 : (load_data fs1 p).isEmpty = true := by
    simp [load_data, h1, DataFrame.empty, DataFrame.isEmpty]
  have e2 : (load_data fs2 p).isEmpty = true := by
    simp [load_data, h2, DataFrame.isEmpty]
  have r1 : render baseDir (load_data fs1 p) =
      Except.ok [Output.html heroHtml, Output.warning (warning_msg baseDir)] := by
    simp [render, e1]
  have r2 : render baseDir (load_data fs2 p) =
      Except.ok [Output.html heroHtml, Output.warning (warning_msg baseDir)] := by
    simp [render, e2]
  exact ⟨e1, e2, r1.trans r2.symm, r1⟩

theorem c9_witness :
    (((fun _ => none) : FS) "data" = none) ∧
    (((fun _ => some ⟨["year"], []⟩) : FS) "data" = some ⟨["year"], []⟩) ∧
    ((load_data (fun _ => none) "data").isEmpty = true ∧
      (load_data (fun _ => some ⟨["year"], []⟩) "data").isEmpty = true ∧
      render "" (load_data (fun _ => none) "data") =
        render "" (load_data (fun _ => some ⟨["year"], []⟩) "data") ∧
      render "" (load_data (fun _ => none) "data") =
        Except.ok [Output.html heroHtml, Output.warning (warning_msg "")]) :=
  ⟨rfl, rfl,
    c9_absent_vs_empty_file "" (fun _ => none) (fun _ => some ⟨["year"], []⟩)
      "data" ["year"] rfl rfl⟩

/-- Claim C3: for a non-empty table with a `country_code` column, the
Countries metric is the number of distinct country codes (duplicates count
once: prepending a row whose code already occurs leaves the metric fixed);
with the column absent the metric is zero.  On the worked example the
metric is 2 while the row count is 3. -/
theorem c3_countries_distinct (df : DataFrame) (hne : df.isEmpty = false) :
    (df.cols.contains "country_code" = true →
      countries df = ((df.rows.filterMap Row.country_code).dedup).length ∧
      (∀ (r : Row) (v : String), r.country_code = some v →
        v ∈ df.rows.filterMap Row.country_code →
        countries ⟨df.cols, r :: df.rows⟩ = countries df)) ∧
    (df.cols.contains "country_code" = false → countries df = 0) ∧
    (countries dfEx = 2 ∧ rows dfEx = 3) := by
  obtain ⟨cols, rs⟩ := df
  refine ⟨fun h => ⟨?_, ?_⟩, fun h => ?_, by decide, by decide⟩
  · dsimp only [countries]
    rw [if_pos h]
  · intro r v hv hmem
    dsimp only [countries] at *
    rw [if_pos h, if_pos h]
    simp only [List.filterMap_cons, hv]
    rw [List.dedup_cons_of_mem hmem]
  · dsimp only [countries]
    rw [if_neg (show ¬cols.contains "country_code" = true from fun hc => by
      simp only [DataFrame.cols] at h; rw [hc] at h; exact Bool.noConfusion h)]

theorem c3_witness :
    dfEx.isEmpty = false ∧
      ((dfEx.cols.contains "country_code" = true →
        countries dfEx = ((dfEx.rows.filterMap Row.country_code).dedup).length ∧
        (∀ (r : Row) (v : String), r.country_code = some v →
          v ∈ dfEx.rows.filterMap Row.country_code →
          countries ⟨dfEx.cols, r :: dfEx.rows⟩ = countries dfEx)) ∧
      (dfEx.cols.contains "country_code" = false → countries dfEx = 0) ∧
      (countries dfEx = 2 ∧ rows dfEx = 3)) :=
  ⟨rfl, c3_countries_distinct dfEx rfl⟩

/-- Claim C4: for a non-empty well-formed table the Indicators metric is
the number of distinct non-null indicator names, and the derived list is
sorted and deduplicated; on the worked example (`country_code` {US, US, FR},
`indicator_name` {GDP, Inflation, GDP}), Countries = 2 and Indicators = 2. -/
theorem c4_indicators_sorted_dedup (df : DataFrame) (hwf : df.WF)
    (_hne : df.isEmpty = false) :
    (indicators df).length = ((df.rows.filterMap Row.indicator_name).dedup).length ∧
    List.Sorted (fun a b => a ≤ b) (indicators df) ∧
    (indicators df).Nodup ∧
    (countries dfEx = 2 ∧ (indicators dfEx).length = 2) := by
  refine ⟨?_, ?_, ?_, by decide, ?_⟩
  · rw [indicators_length]
    split
    · rfl
    · rename_i h
      rw [List.filterMap_eq_nil_iff.mpr (hwf.2.1 (by simpa using h))]
      rfl
  · unfold indicators
    split
    · exact List.sorted_insertionSort _ _
    · exact List.sorted_nil
  · unfold indicators
    split
    · exact (List.perm_insertionSort _ _).nodup_iff.mpr (List.nodup_dedup _)
    · exact List.nodup_nil
  · rw [indicators_length]
    decide

theorem c4_witness :
    dfEx.WF ∧ dfEx.isEmpty = false ∧
      ((indicators dfEx).length =
        ((dfEx.rows.filterMap Row.indicator_name).dedup).length ∧
      List.Sorted (fun a b => a ≤ b) (indicators dfEx) ∧
      (indicators dfEx).Nodup ∧
      (countries dfEx = 2 ∧ (indicators dfEx).length = 2)) :=
  ⟨⟨by decide, by decide, by decide⟩, rfl,
    c4_indicators_sorted_dedup dfEx ⟨by decide, by decide, by decide⟩ rfl⟩

/-- Claim C5: the preview shows all rows when the table has at most 50,
and exactly the first 50 rows in file order otherwise. -/
theorem c5_preview_first_50 (df : DataFrame) (_hne : df.isEmpty = false) :
    (df.rows.length ≤ 50 → preview_rows df = df.rows) ∧
    (50 < df.rows.length →
      (preview_rows df).length = 50 ∧
      ∀ i, i < 50 → (preview_rows df)[i]? = df.rows[i]?) := by
  refine ⟨fun h => List.take_of_length_le h, fun h => ⟨?_, ?_⟩⟩
  · simp [preview_rows, List.length_take, Nat.min_eq_left (Nat.le_of_lt h)]
  · intro i hi
    simp [preview_rows, List.getElem?_take, hi]

theorem c5_witness :
    dfEx.isEmpty = false ∧
      ((dfEx.rows.length ≤ 50 → preview_rows dfEx = dfEx.rows) ∧
      (50 < dfEx.rows.length →
        (preview_rows dfEx).length = 50 ∧
        ∀ i, i < 50 → (preview_rows dfEx)[i]? = dfEx.rows[i]?)) :=
  ⟨rfl, c5_preview_first_50 dfEx rfl⟩

/-- Claim C6: the preview column set is exactly the intersection of the
fixed allowlist with the columns present, in allowlist order (a sublist of
the allowlist), and is invariant under permuting the table's native column
order. -/
theorem c6_preview_columns (df : DataFrame) (_hne : df.isEmpty = false) :
    (∀ c, c ∈ show_cols df ↔ (c ∈ allow_list ∧ c ∈ df.cols)) ∧
    (show_cols df).Sublist allow_list ∧
    (∀ cols2, df.cols.Perm cols2 → show_cols ⟨cols2, df.rows⟩ = show_cols df) := by
  refine ⟨?_, List.filter_sublist _, ?_⟩
  · intro c
    simp [show_cols, List.mem_filter, List.contains, List.elem_iff]
  · intro cols2 hperm
    apply List.filter_congr
    intro c _
    rw [Bool.eq_iff_iff]
    simp only [List.contains, List.elem_iff]
    exact hperm.symm.mem_iff

theorem c6_witness :
    dfEx.isEmpty = false ∧
      ((∀ c, c ∈ show_cols dfEx ↔ (c ∈ allow_list ∧ c ∈ dfEx.cols)) ∧
      (show_cols dfEx).Sublist allow_list ∧
      (∀ cols2, dfEx.cols.Perm cols2 →
        show_cols ⟨cols2, dfEx.rows⟩ = show_cols dfEx)) :=
  ⟨rfl, c6_preview_columns dfEx rfl⟩

/-- Claim C7 counterexample: on a non-empty table whose `year` column is
present but entirely null, the render does not produce a Years metric at
all — it raises the Python `int(nan)` conversion error, contradicting the
claim's unconditional "column present ⇒ min → max string" clause. -/
theorem c7_counterexample : render "" dfNullYear = Except.error nan_int_error := rfl

/-- Claim C7 (amended): for a non-empty table, the Years metric renders as
the em-dash placeholder when the `year` column is absent, and as
`"{min} → {max}"` of the minimum and maximum non-null year when the column
is present and holds at least one non-null year; in both cases the four
metrics appear in the fixed order Countries, Indicators, Years, Rows. -/
theorem c7_years_metric (baseDir : String) (df : DataFrame)
    (hne : df.isEmpty = false) :
    (df.cols.contains "year" = false →
      ∃ out, render baseDir df = Except.ok out ∧
        out.filter Output.isMetric =
          [Output.metric "Countries" (commaFmt (countries df)),
           Output.metric "Indicators" (commaFmt (indicators df).length),
           Output.metric "Years" "—",
           Output.metric "Rows" (commaFmt (rows df))]) ∧
    (df.cols.contains "year" = true →
      ∀ m M, (df.rows.filterMap Row.year).min? = some m →
        (df.rows.filterMap Row.year).max? = some M →
        ∃ out, render baseDir df = Except.ok out ∧
          out.filter Output.isMetric =
            [Output.metric "Countries" (commaFmt (countries df)),
             Output.metric "Indicators" (commaFmt (indicators df).length),
             Output.metric "Years" (toString m ++ " → " ++ toString M),
             Output.metric "Rows" (commaFmt (rows df))]) := by
  have hne' : ¬(df.isEmpty = true) := by simp [hne]
  constructor
  · intro h
    have h' : ¬(df.cols.contains "year" = true) := fun hc => by
      rw [hc] at h; exact Bool.noConfusion h
    have hmin : year_min df = Except.ok none := by unfold year_min; rw [if_neg h']
    have hmax : year_max df = Except.ok none := by unfold year_max; rw [if_neg h']
    refine ⟨[Output.html heroHtml,
        Output.metric "Countries" (commaFmt (countries df)),
        Output.metric "Indicators" (commaFmt (indicators df).length),
        Output.metric "Years" (yearsStr none none),
        Output.metric "Rows" (commaFmt (rows df))]
        ++ prose_outputs
        ++ [Output.preview (show_cols df) (preview_rows df),
            Output.caption caption_text], ?_, ?_⟩
    · unfold render
      rw [if_neg hne', hmin, hmax]
    · simp [List.filter_append, List.filter_cons, prose_no_metric,
        Output.isMetric, yearsStr]
  · intro h m M hm hM
    have hmin : year_min df = Except.ok (some m) := by
      unfold year_min; rw [if_pos h, hm]
    have hmax : year_max df = Except.ok (some M) := by
      unfold year_max; rw [if_pos h, hM]
    refine ⟨[Output.html heroHtml,
        Output.metric "Countries" (commaFmt (countries df)),
        Output.metric "Indicators" (commaFmt (indicators df).length),
        Output.metric "Years" (yearsStr (some m) (some M)),
        Output.metric "Rows" (commaFmt (rows df))]
        ++ prose_outputs
        ++ [Output.preview (show_cols df) (preview_rows df),
            Output.caption caption_text], ?_, ?_⟩
    · unfold render
      rw [if_neg hne', hmin, hmax]
    · simp [List.filter_append, List.filter_cons, prose_no_metric,
        Output.isMetric, yearsStr]

theorem c7_witness :
    dfEx.isEmpty = false ∧
      ((dfEx.cols.contains "year" = false →
        ∃ out, render "" dfEx = Except.ok out ∧
          out.filter Output.isMetric =
            [Output.metric "Countries" (commaFmt (countries dfEx)),
             Output.metric "Indicators" (commaFmt (indicators dfEx).length),
             Output.metric "Years" "—",
             Output.metric "Rows" (commaFmt (rows dfEx))]) ∧
      (dfEx.cols.contains "year" = true →
        ∀ m M, (dfEx.rows.filterMap Row.year).min? = some m →
          (dfEx.rows.filterMap Row.year).max? = some M →
          ∃ out, render "" dfEx = Except.ok out ∧
            out.filter Output.isMetric =
              [Output.metric "Countries" (commaFmt (countries dfEx)),
               Output.metric "Indicators" (commaFmt (indicators dfEx).length),
               Output.metric "Years" (toString m ++ " → " ++ toString M),
               Output.metric "Rows" (commaFmt (rows dfEx))])) :=
  ⟨rfl, c7_years_metric "" dfEx rfl⟩

/-- Claim C8: two calls through the path-keyed cache with the same path
return equal tables and the second call performs no storage read; on an
empty cache the cached call returns exactly what `load_data` reads. -/
theorem c8_cache_memoization (fs : FS) (c : Cache) (p : String) :
    (cachedLoad fs [] p).1 = load_data fs p ∧
    (cachedLoad fs (cachedLoad fs c p).2.1 p).1 = (cachedLoad fs c p).1 ∧
    (cachedLoad fs (cachedLoad fs c p).2.1 p).2.2 = false := by
  refine ⟨rfl, ?_, ?_⟩ <;>
  · cases h : List.lookup p c with
    | some df => simp [cachedLoad, h]
    | none => simp [cachedLoad, h]

/-- Claim C10: rows with a null `country_code` are excluded from the
Countries distinct count, rows with a null `indicator_name` are excluded
from the Indicators distinct count, while the Rows metric counts every row
(prepending any row, null-fielded or not, adds one). -/
theorem c10_null_rows_excluded (df : DataFrame) (hne : df.isEmpty = false) :
    countries ⟨df.cols, df.rows.filter (fun r => r.country_code.isSome)⟩ =
      countries df ∧
    indicators ⟨df.cols, df.rows.filter (fun r => r.indicator_name.isSome)⟩ =
      indicators df ∧
    (∀ r : Row, rows ⟨df.cols, r :: df.rows⟩ = rows df + 1) ∧
    rows df = df.rows.length := by
  obtain ⟨cols, rs⟩ := df
  refine ⟨?_, ?_, fun r => rfl, rfl⟩
  · dsimp only [countries]
    rw [filterMap_filter_isSome]
  · dsimp only [indicators]
    rw [filterMap_filter_isSome]

/-- A table with one fully-populated row and one row whose `country_code`
and `indicator_name` are null. -/
def dfNulls : DataFrame :=
  ⟨["country", "country_code", "year", "indicator_name", "value", "source"],
   [⟨none, some "US", some 2010, none, some "GDP", none⟩,
    ⟨none, none, some 2011, none, none, none⟩]⟩

theorem c10_witness :
    dfNulls.isEmpty = false ∧
      (countries ⟨dfNulls.cols,
          dfNulls.rows.filter (fun r => r.country_code.isSome)⟩ =
        countries dfNulls ∧
      indicators ⟨dfNulls.cols,
          dfNulls.rows.filter (fun r => r.indicator_name.isSome)⟩ =
        indicators dfNulls ∧
      (∀ r : Row, rows ⟨dfNulls.cols, r :: dfNulls.rows⟩ = rows dfNulls + 1) ∧
      rows dfNulls = dfNulls.rows.length) :=
  ⟨rfl, c10_null_rows_excluded dfNulls rfl⟩

end Home
